import Mathlib

/-!
Verification development for the action-interpretation engine of `apis.py`
(PPTAgent). The Python source is shallowly embedded: pure string helpers
mirror the Python string primitives they stand for, the in-place mutation of
the executor's history lists and of the slide's shapes is rendered as
explicit state passing, and raising code returns `Except`. The single
genuinely external effect inside `execute_actions` — Python's `eval` of one
statement line against the one injected registered operation — is taken as a
function parameter `ev`, and `os.path.exists` is taken as a predicate `fs`
on paths.
-/

/-! ## Python string primitives -/

/-- The characters stripped by Python's `str.strip()` (ASCII whitespace; the
further Unicode whitespace Python would also strip never occurs in the
inputs considered here). -/
def isPyWhitespace (c : Char) : Bool :=
  c = ' ' || c = '\t' || c = '\n' || c = '\r' || c = '\x0b' || c = '\x0c'

/-- Python `str.strip()`: drop leading and trailing whitespace. -/
def pyStrip (s : String) : String :=
  String.mk (((s.data.dropWhile isPyWhitespace).reverse.dropWhile isPyWhitespace).reverse)

/-- Python `str.split("\n")` on the character list: split at every newline,
keeping empty pieces; the empty string yields one empty piece. -/
def py_split_nl : List Char → List (List Char)
  | [] => [[]]
  | c :: rest =>
    match py_split_nl rest with
    | [] => [[]]
    | g :: gs => if c = '\n' then [] :: g :: gs else (c :: g) :: gs

/-- Python `s.split("\n")` as a list of strings. -/
def py_split_nl_str (s : String) : List String :=
  (py_split_nl s.data).map (fun cs => String.mk cs)

/-- Python `sep.join(xs)`. -/
def py_join (sep : String) : List String → String
  | [] => ""
  | [x] => x
  | x :: y :: xs => x ++ sep ++ py_join sep (y :: xs)

/-- Python `s.startswith(pre)`. -/
def py_startswith (s pre : String) : Bool :=
  pre.data.isPrefixOf s.data

/-- Python `line.split("(")[0]`: the prefix of the line before its first
opening parenthesis (the whole line when none occurs). -/
def split_paren_head (line : String) : String :=
  String.mk (line.data.takeWhile (fun c => c != '('))

/-- Python `xs[:i]` for an `int` slice bound `i` (negative bounds count from
the end, clamped at zero). -/
def py_slice_to (xs : List String) (i : Int) : List String :=
  if 0 ≤ i then xs.take i.toNat
  else xs.take (xs.length - (-i).toNat)

def isAsciiLower (c : Char) : Bool :=
  'a' ≤ c && c ≤ 'z'

/-- The statement grammar `re.compile(r"^[a-z]+_[a-z]+\(.+\)$").match line`.
Since `[a-z]`, `_` and `(` are pairwise disjoint character classes, the
regex engine's maximal munch of each `[a-z]+` is exact (no backtracking can
produce a match the greedy scan misses), so the language is: a nonempty
lowercase-letter segment, `_`, a nonempty lowercase-letter segment, `(`, a
nonempty run of non-newline characters, and a final `)`.  Lines produced by
`split("\n")` contain no newline, so the `$`-before-trailing-newline case of
`re` cannot arise. -/
def function_regex_match (line : String) : Bool :=
  let cs := line.data
  let seg1 := cs.takeWhile isAsciiLower
  let rest1 := cs.dropWhile isAsciiLower
  match seg1, rest1 with
  | [], _ => false
  | _ :: _, '_' :: r2 =>
    let seg2 := r2.takeWhile isAsciiLower
    let rest2 := r2.dropWhile isAsciiLower
    match seg2, rest2 with
    | [], _ => false
    | _ :: _, '(' :: r4 =>
      !r4.dropLast.isEmpty && r4.getLast? == some ')' && r4.dropLast.all (fun c => c != '\n')
    | _ :: _, _ => false
  | _ :: _, _ => false

/-! ## Python exceptions -/

/-- The exceptions the embedded code can raise: `ValueError(msg)` raised
explicitly by the source, and the `IndexError` of indexing an empty list. -/
inductive PyError where
  | valueError (msg : String)
  | indexError
deriving Repr, DecidableEq

/-- `traceback.format_exc()`, modelled as the final line of the traceback —
the exception class and message, which is all the claims inspect. -/
def format_exc : PyError → String
  | .valueError msg => "ValueError: " ++ msg
  | .indexError => "IndexError: list index out of range"

instance {ε α : Type} [DecidableEq ε] [DecidableEq α] : DecidableEq (Except ε α) := fun x y =>
  match x, y with
  | Except.ok a, Except.ok b =>
    if h : a = b then isTrue (by rw [h]) else isFalse (by intro hc; cases hc; exact h rfl)
  | Except.ok _, Except.error _ => isFalse (by intro hc; cases hc)
  | Except.error _, Except.ok _ => isFalse (by intro hc; cases hc)
  | Except.error a, Except.error b =>
    if h : a = b then isTrue (by rw [h]) else isFalse (by intro hc; cases hc; exact h rfl)

/-! ## The slide object model (external collaborator) -/

/-- Modelled from the spec: a Mutation Closure is a partially-applied
operation queued on a shape — the operation plus every argument except the
target sub-element (`partial(del_run, paragraph_id, span_id)`,
`partial(replace_run, paragraph_id, span_id, text)`,
`partial(clone_para, paragraph_id)`).  The committing collaborator that
later applies them is outside this core. -/
inductive Closure where
  | del_run (paragraph_id span_id : Int)
  | replace_run (paragraph_id span_id : Int) (new_text : String)
  | clone_para (paragraph_id : Int)
deriving Repr, DecidableEq

/-- Modelled from the spec: the shape boundary contract of the external
`presentation` module — a stable integer `shape_idx`, distinguishability of
the Picture kind (`isinstance(shape, Picture)` becomes `is_picture`), a
mutable `img_path` and the three named closure queues.  The textual
paragraph/run structure is owned by the committing collaborator and never
read by this core, so it is not part of the model. -/
structure Shape where
  shape_idx : Int
  is_picture : Bool
  img_path : String
  closures_delete : List Closure
  closures_replace : List Closure
  closures_clone : List Closure
deriving Repr, DecidableEq

/-- Modelled from the spec: a slide exposes its index and ordered iteration
over shapes. -/
structure SlidePage where
  slide_idx : Nat
  shapes : List Shape
deriving Repr, DecidableEq

/-! ## Element resolver and api functions -/

/-- `element_index(slide, element_id)`: first shape whose index matches,
else `ValueError`. -/
def element_index (slide : SlidePage) (element_id : Int) : Except PyError Shape :=
  match slide.shapes.find? (fun sh => sh.shape_idx == element_id) with
  | some sh => Except.ok sh
  | none => Except.error (PyError.valueError
      ("Cannot find element " ++ toString element_id ++ ", is it deleted or not exist?"))

/-- Apply `f` in place to the first shape with the given index (identity
when none matches; only reached after `element_index` succeeded). -/
def modify_first : List Shape → Int → (Shape → Shape) → List Shape
  | [], _, _ => []
  | sh :: rest, id, f =>
    if sh.shape_idx == id then f sh :: rest else sh :: modify_first rest id f

/-- Functional rendering of `shape = element_index(slide, id)` followed by an
in-place mutation of the found shape object. -/
def with_element (slide : SlidePage) (element_id : Int) (f : Shape → Shape) :
    Except PyError SlidePage :=
  match element_index slide element_id with
  | Except.error e => Except.error e
  | Except.ok _ => Except.ok { slide with shapes := modify_first slide.shapes element_id f }

/-- Python `list.remove(x)`: remove the first element equal to `x` (the
shape found by `element_index`, which is present when this is reached). -/
def remove_first_shape : List Shape → Shape → List Shape
  | [], _ => []
  | sh :: rest, x => if sh == x then rest else sh :: remove_first_shape rest x

/-- `del_span(slide, div_id, paragraph_id, span_id)`. -/
def del_span (slide : SlidePage) (div_id paragraph_id span_id : Int) :
    Except PyError SlidePage :=
  with_element slide div_id (fun sh =>
    { sh with closures_delete := sh.closures_delete ++ [Closure.del_run paragraph_id span_id] })

/-- `del_image(slide, figure_id)`. -/
def del_image (slide : SlidePage) (figure_id : Int) : Except PyError SlidePage :=
  match element_index slide figure_id with
  | Except.error e => Except.error e
  | Except.ok shape =>
    if shape.is_picture = false then
      Except.error (PyError.valueError "The element is not a Picture.")
    else
      Except.ok { slide with shapes := remove_first_shape slide.shapes shape }

/-- `replace_text(slide, div_id, paragraph_id, span_id, text)`. -/
def replace_text (slide : SlidePage) (div_id paragraph_id span_id : Int) (text : String) :
    Except PyError SlidePage :=
  with_element slide div_id (fun sh =>
    { sh with closures_replace := sh.closures_replace ++ [Closure.replace_run paragraph_id span_id text] })

/-- `replace_image(slide, figure_id, image_path)`; `os.path.exists` is the
predicate `fs`. -/
def replace_image (fs : String → Bool) (slide : SlidePage) (figure_id : Int)
    (image_path : String) : Except PyError SlidePage :=
  if fs image_path = false then
    Except.error (PyError.valueError ("The image " ++ image_path ++ " does not exist."))
  else
    match element_index slide figure_id with
    | Except.error e => Except.error e
    | Except.ok shape =>
      if shape.is_picture = false then
        Except.error (PyError.valueError "The element is not a Picture.")
      else
        Except.ok { slide with
          shapes := modify_first slide.shapes figure_id
            (fun sh => { sh with img_path := image_path }) }

/-- `clone_paragraph(slide, div_id, paragraph_id)`. -/
def clone_paragraph (slide : SlidePage) (div_id paragraph_id : Int) :
    Except PyError SlidePage :=
  with_element slide div_id (fun sh =>
    { sh with closures_clone := sh.closures_clone ++ [Closure.clone_para paragraph_id] })

/-- The names of `API_TYPES.all_funcs()`: the five operations of the
`Agent` category. -/
def registered_functions : List String :=
  ["del_span", "del_image", "clone_paragraph", "replace_text", "replace_image"]

/-! ## History marks and entries -/

def API_CALL_ERROR : String := "api_call_error"
def API_CALL_CORRECT : String := "api_call_correct"
def CODE_RUN_ERROR : String := "code_run_error"
def CODE_RUN_CORRECT : String := "code_run_correct"

/-- A batch-level history entry `[mark, slide_idx, actions]`. -/
structure ApiEntry where
  mark : String
  slide_idx : Nat
  actions : String
deriving Repr, DecidableEq

/-- A statement-level history entry `[mark, line, trace]` (trace `None`
until a failure attaches one). -/
structure CodeEntry where
  mark : String
  line : String
  trace : Option String
deriving Repr, DecidableEq

/-- The mutable state of a `CodeExecutor` instance (the registry and the
compiled regex are process-wide constants and appear as the definitions
`registered_functions` and `function_regex_match`). -/
structure CodeExecutor where
  api_history : List ApiEntry
  code_history : List CodeEntry
  retry_times : Nat
deriving Repr, DecidableEq

/-- `self.api_history[-1][0] = m` (the list is nonempty at both call
sites: an entry was appended on entry to `execute_actions`). -/
def update_last_api_mark (h : List ApiEntry) (m : String) : List ApiEntry :=
  h.dropLast ++ ((h.getLast?.map (fun e => { e with mark := m })).toList)

/-- `self.code_history[-1][0] = m` (called right after an append). -/
def update_last_code_mark (h : List CodeEntry) (m : String) : List CodeEntry :=
  h.dropLast ++ ((h.getLast?.map (fun e => { e with mark := m })).toList)

/-- `self.code_history[-1][-1] = t`: raises `IndexError` when the history
is empty (which the source does not guard against). -/
def set_last_code_trace (h : List CodeEntry) (t : String) :
    Except PyError (List CodeEntry) :=
  match h.getLast? with
  | none => Except.error PyError.indexError
  | some e => Except.ok (h.dropLast ++ [{ e with trace := some t }])

/-- The last entry of a code history with its trace field overwritten
(`none` meaning no overwrite happened). -/
def apply_trace_last (h : List CodeEntry) : Option String → List CodeEntry
  | none => h
  | some t => h.dropLast ++ ((h.getLast?.map (fun e => { e with trace := some t })).toList)

/-! ## The execution engine -/

/-- The annotated batch built in the `except` branch:
`"\n".join(api_calls[: line_idx - 1]) + f"\n--> Error Line: \x7bline\x7d\n" +
"\n".join(api_calls[line_idx:])`. -/
def api_lines_render (api_calls : List String) (line_idx : Nat) (line : String) : String :=
  py_join "\n" (py_slice_to api_calls ((line_idx : Int) - 1))
    ++ "\n--> Error Line: " ++ line ++ "\n"
    ++ py_join "\n" (api_calls.drop line_idx)

/-- Outcome of the `try` block body for one line: fall through to the next
line (`continue` on a grammar miss), complete the statement, or raise —
carrying the value `found_code` has at the moment of the raise, which the
`except` branch reads. -/
inductive BodyOutcome where
  | skip
  | ran
  | exn (e : PyError) (found_code : Bool)
deriving Repr, DecidableEq

/-- The `try` block body of `execute_actions` for one line (source lines
67–82).  `ev` performs `eval(line, {}, {func: partial(registered[func],
slide)})`; a raising evaluation is modelled as leaving the slide unchanged
(no claim depends on a partially-applied raising statement). -/
def try_body (ev : String → SlidePage → Except PyError SlidePage)
    (api_calls : List String) (line_idx : Nat) (line : String) (found_code : Bool)
    (code_history : List CodeEntry) (slide : SlidePage) :
    BodyOutcome × List CodeEntry × SlidePage :=
  if line_idx = api_calls.length - 1 ∧ found_code = false then
    (BodyOutcome.exn (PyError.valueError
        "No code block found in the output, wrap your code with ```python```") found_code,
      code_history, slide)
  else if py_startswith line "def" = true then
    (BodyOutcome.exn (PyError.valueError "The function definition should not be output.")
        found_code, code_history, slide)
  else if function_regex_match line = false then
    (BodyOutcome.skip, code_history, slide)
  else
    if registered_functions.contains (split_paren_head line) = false then
      (BodyOutcome.exn (PyError.valueError
          ("The function " ++ split_paren_head line ++ " is not defined.")) true,
        code_history, slide)
    else
      match ev line slide with
      | Except.error e =>
        (BodyOutcome.exn e true, code_history ++ [⟨CODE_RUN_ERROR, line, none⟩], slide)
      | Except.ok slide2 =>
        (BodyOutcome.ran,
          update_last_code_mark (code_history ++ [⟨CODE_RUN_ERROR, line, none⟩]) CODE_RUN_CORRECT,
          slide2)

/-- How the `for` loop of `execute_actions` ends: the loop runs to
completion, the `except` branch returns the failure tuple, or the `except`
branch itself raises (`IndexError` on an empty code history). -/
inductive LoopResult where
  | completed
  | returned (api_lines trace_msg : String)
  | raised (e : PyError)
deriving Repr, DecidableEq

/-- The `for line_idx, line in enumerate(api_calls)` loop with its `except`
branch (source lines 65–92), iterating over the suffix of `api_calls`
starting at `line_idx`. -/
def execute_loop (ev : String → SlidePage → Except PyError SlidePage)
    (api_calls : List String) :
    List String → Nat → Bool → List CodeEntry → SlidePage →
    LoopResult × List CodeEntry × SlidePage
  | [], _, _, ch, sl => (LoopResult.completed, ch, sl)
  | line :: rest, line_idx, found_code, ch, sl =>
    match try_body ev api_calls line_idx line found_code ch sl with
    | (BodyOutcome.skip, ch1, sl1) =>
      execute_loop ev api_calls rest (line_idx + 1) found_code ch1 sl1
    | (BodyOutcome.ran, ch1, sl1) =>
      execute_loop ev api_calls rest (line_idx + 1) true ch1 sl1
    | (BodyOutcome.exn e fc, ch1, sl1) =>
      let trace_msg := format_exc e
      if fc = true then
        match set_last_code_trace ch1 trace_msg with
        | Except.error e2 => (LoopResult.raised e2, ch1, sl1)
        | Except.ok ch2 =>
          (LoopResult.returned (api_lines_render api_calls line_idx line) trace_msg, ch2, sl1)
      else
        (LoopResult.returned (api_lines_render api_calls line_idx line) trace_msg, ch1, sl1)

/-- What `execute_actions` hands back to its caller: `None` on success, the
`(api_lines, trace_msg)` failure tuple, or a propagating exception. -/
inductive ExecResult where
  | success
  | failure (api_lines trace_msg : String)
  | raised (e : PyError)
deriving Repr, DecidableEq

/-- `CodeExecutor.execute_actions(actions, edit_slide)` (source lines
59–93), returning the result together with the updated executor state and
slide. -/
def execute_actions (ev : String → SlidePage → Except PyError SlidePage)
    (self : CodeExecutor) (actions : String) (edit_slide : SlidePage) :
    ExecResult × CodeExecutor × SlidePage :=
  let api_calls := py_split_nl_str (pyStrip actions)
  let api_history := self.api_history ++ [⟨API_CALL_ERROR, edit_slide.slide_idx, actions⟩]
  match execute_loop ev api_calls api_calls 0 false self.code_history edit_slide with
  | (LoopResult.completed, ch, sl) =>
    (ExecResult.success,
      ⟨update_last_api_mark api_history API_CALL_CORRECT, ch, self.retry_times⟩, sl)
  | (LoopResult.returned api_lines trace_msg, ch, sl) =>
    (ExecResult.failure api_lines trace_msg, ⟨api_history, ch, self.retry_times⟩, sl)
  | (LoopResult.raised e, ch, sl) =>
    (ExecResult.raised e, ⟨api_history, ch, self.retry_times⟩, sl)

/-! ## Documentation generator -/

/-- A parameter as `inspect.signature` reports it: `anno` is the
annotation's `__name__` (absent for `Parameter.empty`), `default_repr` is
`repr(param.default)` (absent for `Parameter.empty`); both are precomputed
strings because the underlying values are arbitrary external Python
objects. -/
structure PyParam where
  name : String
  anno : Option String
  default_repr : Option String
deriving Repr, DecidableEq

/-- A registered callable as reflection sees it: `__name__`, its signature's
parameters in order, and `inspect.getdoc` (absent when the function has no
docstring). -/
structure PyFunc where
  name : String
  params : List PyParam
  doc : Option String
deriving Repr, DecidableEq

/-- An f-string renders Python `None` as `"None"`. -/
def py_str_opt : Option String → String
  | some d => d
  | none => "None"

/-- The `param_str` accumulation of `get_apis_docs` (source lines 45–49). -/
def param_str (p : PyParam) : String :=
  let s1 := p.name
  let s2 := match p.anno with
    | some t => s1 ++ ": " ++ t
    | none => s1
  match p.default_repr with
  | some d => s2 ++ " = " ++ d
  | none => s2

/-- The parameter list of one documentation block, skipping the implicit
`slide` parameter (source lines 42–50). -/
def func_params (f : PyFunc) : List String :=
  (f.params.filter (fun p => p.name ≠ "slide")).map param_str

/-- `signature = f"def \x7bfunc.__name__\x7d(\x7b', '.join(params)\x7d)"`. -/
def func_signature (f : PyFunc) : String :=
  "def " ++ f.name ++ "(" ++ py_join ", " (func_params f) ++ ")"

/-- `CodeExecutor.get_apis_docs(funcs, show_example)` (source lines 37–57). -/
def get_apis_docs (funcs : List PyFunc) (show_example : Bool) : String :=
  py_join "\n" (funcs.map (fun f =>
    if show_example = false then func_signature f
    else func_signature f ++ "\n\t" ++ py_str_opt f.doc))

/-- The documentation block exactly as the spec words it: a first line
`def <name>(<arg[: type][ = default]>, ...)` omitting the implicit slide
argument, and — when examples are shown — a second, tab-indented line with
the operation's description. -/
def spec_doc_block (show_example : Bool) (f : PyFunc) : String :=
  let args := (f.params.filter (fun p => p.name ≠ "slide")).map (fun p =>
    p.name
      ++ (match p.anno with | some t => ": " ++ t | none => "")
      ++ (match p.default_repr with | some d => " = " ++ d | none => ""))
  let first := "def " ++ f.name ++ "(" ++ py_join ", " args ++ ")"
  if show_example then first ++ "\n\t" ++ py_str_opt f.doc else first

/-! ## Concrete fixtures for witnesses and counterexamples -/

/-- An evaluator for which every statement evaluation succeeds and performs
no mutation. -/
def ev_ok : String → SlidePage → Except PyError SlidePage :=
  fun _ sl => Except.ok sl

/-- A filesystem on which no path exists. -/
def fs_none : String → Bool := fun _ => false

/-- A filesystem on which every path exists. -/
def fs_all : String → Bool := fun _ => true

/-- An evaluator interpreting the one literal statement
`replace_image(3, '/tmp/missing.png')` by the real `replace_image` against
a filesystem on which the path is missing. -/
def ev_replace_missing : String → SlidePage → Except PyError SlidePage :=
  fun line sl =>
    if line = "replace_image(3, '/tmp/missing.png')" then replace_image fs_none sl 3 "/tmp/missing.png"
    else Except.ok sl

/-- A fresh executor (empty histories). -/
def cx0 : CodeExecutor := ⟨[], [], 0⟩

/-- An executor that already holds one statement entry from a previous
batch. -/
def cx1 : CodeExecutor :=
  ⟨[], [⟨CODE_RUN_CORRECT, "old_span(1, 0, 0)", none⟩], 0⟩

/-- An empty slide. -/
def slide0 : SlidePage := ⟨0, []⟩

/-- A non-Picture shape with index 0 and empty closure queues. -/
def shapeA : Shape := ⟨0, false, "", [], [], []⟩

/-- A slide holding exactly the non-Picture shape `shapeA`. -/
def slideA : SlidePage := ⟨0, [shapeA]⟩

/-! ## Helper lemmas -/

theorem py_split_nl_ne_nil (cs : List Char) : py_split_nl cs ≠ [] := by
  cases cs with
  | nil => simp [py_split_nl]
  | cons c rest =>
    simp only [py_split_nl]
    cases py_split_nl rest with
    | nil => simp
    | cons g gs => by_cases hc : c = '\n' <;> simp [hc]

theorem py_split_nl_str_ne_nil (s : String) : py_split_nl_str s ≠ [] := by
  unfold py_split_nl_str
  intro h
  exact py_split_nl_ne_nil s.data (by simpa using h)

theorem update_last_code_mark_concat (h : List CodeEntry) (e : CodeEntry) (m : String) :
    update_last_code_mark (h ++ [e]) m = h ++ [{ e with mark := m }] := by
  simp [update_last_code_mark]

theorem update_last_api_mark_concat (h : List ApiEntry) (e : ApiEntry) (m : String) :
    update_last_api_mark (h ++ [e]) m = h ++ [{ e with mark := m }] := by
  simp [update_last_api_mark]

theorem set_last_code_trace_ok (h : List CodeEntry) (hne : h ≠ []) (t : String) :
    set_last_code_trace h t = Except.ok (apply_trace_last h (some t)) := by
  cases hg : h.getLast? with
  | none => exact absurd (by simpa using hg) hne
  | some e => simp [set_last_code_trace, apply_trace_last, hg]

theorem try_body_nocode (ev : String → SlidePage → Except PyError SlidePage)
    (api_calls : List String) (line_idx : Nat) (line : String)
    (ch : List CodeEntry) (sl : SlidePage)
    (h1 : line_idx = api_calls.length - 1) :
    try_body ev api_calls line_idx line false ch sl
      = (BodyOutcome.exn (PyError.valueError
          "No code block found in the output, wrap your code with ```python```") false, ch, sl) := by
  simp [try_body, h1]

theorem try_body_skip (ev : String → SlidePage → Except PyError SlidePage)
    (api_calls : List String) (line_idx : Nat) (line : String) (fc : Bool)
    (ch : List CodeEntry) (sl : SlidePage)
    (h1 : ¬(line_idx = api_calls.length - 1 ∧ fc = false))
    (h2 : py_startswith line "def" = false)
    (h3 : function_regex_match line = false) :
    try_body ev api_calls line_idx line fc ch sl = (BodyOutcome.skip, ch, sl) := by
  simp [try_body, h1, h2, h3]

theorem try_body_unregistered (ev : String → SlidePage → Except PyError SlidePage)
    (api_calls : List String) (line_idx : Nat) (line : String) (fc : Bool)
    (ch : List CodeEntry) (sl : SlidePage)
    (h1 : ¬(line_idx = api_calls.length - 1 ∧ fc = false))
    (h2 : py_startswith line "def" = false)
    (h3 : function_regex_match line = true)
    (h4 : registered_functions.contains (split_paren_head line) = false) :
    try_body ev api_calls line_idx line fc ch sl
      = (BodyOutcome.exn (PyError.valueError
          ("The function " ++ split_paren_head line ++ " is not defined.")) true, ch, sl) := by
  have h4m : split_paren_head line ∉ registered_functions := by simpa using h4
  simp [try_body, h1, h2, h3, h4m]

theorem try_body_run (ev : String → SlidePage → Except PyError SlidePage)
    (api_calls : List String) (line_idx : Nat) (line : String) (fc : Bool)
    (ch : List CodeEntry) (sl sl2 : SlidePage)
    (h1 : ¬(line_idx = api_calls.length - 1 ∧ fc = false))
    (h2 : py_startswith line "def" = false)
    (h3 : function_regex_match line = true)
    (h4 : registered_functions.contains (split_paren_head line) = true)
    (h5 : ev line sl = Except.ok sl2) :
    try_body ev api_calls line_idx line fc ch sl
      = (BodyOutcome.ran, ch ++ [⟨CODE_RUN_CORRECT, line, none⟩], sl2) := by
  have h4m : split_paren_head line ∈ registered_functions := by simpa using h4
  simp [try_body, h1, h2, h3, h4m, h5, update_last_code_mark_concat]

theorem loop_cons_skip (ev : String → SlidePage → Except PyError SlidePage)
    (api_calls : List String) (line : String) (rest : List String) (line_idx : Nat)
    (fc : Bool) (ch ch1 : List CodeEntry) (sl sl1 : SlidePage)
    (h : try_body ev api_calls line_idx line fc ch sl = (BodyOutcome.skip, ch1, sl1)) :
    execute_loop ev api_calls (line :: rest) line_idx fc ch sl
      = execute_loop ev api_calls rest (line_idx + 1) fc ch1 sl1 := by
  simp only [execute_loop, h]

theorem loop_cons_ran (ev : String → SlidePage → Except PyError SlidePage)
    (api_calls : List String) (line : String) (rest : List String) (line_idx : Nat)
    (fc : Bool) (ch ch1 : List CodeEntry) (sl sl1 : SlidePage)
    (h : try_body ev api_calls line_idx line fc ch sl = (BodyOutcome.ran, ch1, sl1)) :
    execute_loop ev api_calls (line :: rest) line_idx fc ch sl
      = execute_loop ev api_calls rest (line_idx + 1) true ch1 sl1 := by
  simp only [execute_loop, h]

theorem loop_cons_exn_false (ev : String → SlidePage → Except PyError SlidePage)
    (api_calls : List String) (line : String) (rest : List String) (line_idx : Nat)
    (fc : Bool) (ch ch1 : List CodeEntry) (sl sl1 : SlidePage) (e : PyError)
    (h : try_body ev api_calls line_idx line fc ch sl = (BodyOutcome.exn e false, ch1, sl1)) :
    execute_loop ev api_calls (line :: rest) line_idx fc ch sl
      = (LoopResult.returned (api_lines_render api_calls line_idx line) (format_exc e), ch1, sl1) := by
  simp only [execute_loop, h]
  simp

theorem loop_cons_exn_true_ok (ev : String → SlidePage → Except PyError SlidePage)
    (api_calls : List String) (line : String) (rest : List String) (line_idx : Nat)
    (fc : Bool) (ch ch1 ch2 : List CodeEntry) (sl sl1 : SlidePage) (e : PyError)
    (h : try_body ev api_calls line_idx line fc ch sl = (BodyOutcome.exn e true, ch1, sl1))
    (h2 : set_last_code_trace ch1 (format_exc e) = Except.ok ch2) :
    execute_loop ev api_calls (line :: rest) line_idx fc ch sl
      = (LoopResult.returned (api_lines_render api_calls line_idx line) (format_exc e), ch2, sl1) := by
  simp only [execute_loop, h]
  simp [h2]

/-- Processing a prefix of "good" lines (each either failing the grammar and
not starting with `def`, or a registered statement whose evaluation
succeeds) runs the loop through the prefix without failing, appending one
`code_run_correct` entry per grammar-matching line, provided at least one
line follows the prefix. -/
theorem loop_good_prefix (ev : String → SlidePage → Except PyError SlidePage)
    (api_calls : List String) :
    ∀ (pre rest : List String) (line_idx : Nat) (fc : Bool)
      (ch : List CodeEntry) (sl : SlidePage),
    rest ≠ [] →
    line_idx + pre.length + rest.length = api_calls.length →
    (∀ l ∈ pre, py_startswith l "def" = false) →
    (∀ l ∈ pre, function_regex_match l = true →
       registered_functions.contains (split_paren_head l) = true
         ∧ ∀ s, ∃ s2, ev l s = Except.ok s2) →
    ∃ new sl2,
      execute_loop ev api_calls (pre ++ rest) line_idx fc ch sl
        = execute_loop ev api_calls rest (line_idx + pre.length)
            (fc || pre.any (fun l => function_regex_match l)) (ch ++ new) sl2
      ∧ (∀ e ∈ new, e.mark = CODE_RUN_CORRECT ∧ e.line ∈ pre
           ∧ function_regex_match e.line = true)
      ∧ (pre.any (fun l => function_regex_match l) = true → new ≠ [])
      ∧ (pre.any (fun l => function_regex_match l) = false → new = [] ∧ sl2 = sl) := by
  intro pre
  induction pre with
  | nil =>
    intro rest line_idx fc ch sl _ _ _ _
    exact ⟨[], sl, by simp, by simp, by simp, by simp⟩
  | cons l pre' ih =>
    intro rest line_idx fc ch sl hrest hlen hdef hgood
    have hrlen : 0 < rest.length := List.length_pos.mpr hrest
    have hplen : (l :: pre').length = pre'.length + 1 := by simp
    have hne_idx : ¬ line_idx = api_calls.length - 1 := by
      rw [hplen] at hlen; omega
    have h1 : ¬(line_idx = api_calls.length - 1 ∧ fc = false) := fun hc => hne_idx hc.1
    have hdefl : py_startswith l "def" = false := hdef l (by simp)
    cases hm : function_regex_match l with
    | false =>
      have hstep := try_body_skip ev api_calls line_idx l fc ch sl h1 hdefl hm
      rw [List.cons_append, loop_cons_skip ev api_calls l (pre' ++ rest) line_idx fc ch ch sl sl hstep]
      obtain ⟨new, sl2, heq, hmarks, hany, hnone⟩ :=
        ih rest (line_idx + 1) fc ch sl hrest (by rw [hplen] at hlen; omega)
          (fun x hx => hdef x (by simp [hx]))
          (fun x hx => hgood x (by simp [hx]))
      refine ⟨new, sl2, ?_, ?_, ?_, ?_⟩
      · rw [heq]
        have harith : line_idx + 1 + pre'.length = line_idx + (l :: pre').length := by
          rw [hplen]; omega
        rw [harith]
        simp [List.any_cons, hm]
      · exact fun e he => ⟨(hmarks e he).1, by simp [(hmarks e he).2.1], (hmarks e he).2.2⟩
      · intro hc
        apply hany
        simpa [List.any_cons, hm] using hc
      · intro hc
        exact hnone (by simpa [List.any_cons, hm] using hc)
    | true =>
      obtain ⟨hreg, hev⟩ := hgood l (by simp) hm
      obtain ⟨sl1, hsl1⟩ := hev sl
      have hstep := try_body_run ev api_calls line_idx l fc ch sl sl1 h1 hdefl hm hreg hsl1
      rw [List.cons_append,
        loop_cons_ran ev api_calls l (pre' ++ rest) line_idx fc ch
          (ch ++ [⟨CODE_RUN_CORRECT, l, none⟩]) sl sl1 hstep]
      obtain ⟨new, sl2, heq, hmarks, hany, hnone⟩ :=
        ih rest (line_idx + 1) true (ch ++ [⟨CODE_RUN_CORRECT, l, none⟩]) sl1 hrest
          (by rw [hplen] at hlen; omega)
          (fun x hx => hdef x (by simp [hx]))
          (fun x hx => hgood x (by simp [hx]))
      refine ⟨⟨CODE_RUN_CORRECT, l, none⟩ :: new, sl2, ?_, ?_, ?_, ?_⟩
      · rw [heq]
        have harith : line_idx + 1 + pre'.length = line_idx + (l :: pre').length := by
          rw [hplen]; omega
        rw [harith]
        simp [List.any_cons, hm]
      · intro e he
        rcases List.mem_cons.mp he with rfl | he'
        · exact ⟨rfl, by simp, hm⟩
        · exact ⟨(hmarks e he').1, by simp [(hmarks e he').2.1], (hmarks e he').2.2⟩
      · intro _; simp
      · intro hc; simp [List.any_cons, hm] at hc

/-- The `try` body only ever appends to the code history (zero or one
entry), and any appended entry carries one of the two statement marks. -/
theorem try_body_history_shape (ev : String → SlidePage → Except PyError SlidePage)
    (api_calls : List String) (line_idx : Nat) (line : String) (fc : Bool)
    (ch : List CodeEntry) (sl : SlidePage) :
    ∃ app, (try_body ev api_calls line_idx line fc ch sl).2.1 = ch ++ app
      ∧ ∀ e ∈ app, e.mark = CODE_RUN_ERROR ∨ e.mark = CODE_RUN_CORRECT := by
  unfold try_body
  split
  · exact ⟨[], by simp, by simp⟩
  split
  · exact ⟨[], by simp, by simp⟩
  split
  · exact ⟨[], by simp, by simp⟩
  split
  · exact ⟨[], by simp, by simp⟩
  split
  · exact ⟨[⟨CODE_RUN_ERROR, line, none⟩], by simp, by simp⟩
  · refine ⟨[⟨CODE_RUN_CORRECT, line, none⟩], ?_, by simp⟩
    simp [update_last_code_mark_concat]

/-- Across a whole loop run the final code history is an append to the
initial one, except that the trace field of its last entry may have been
overwritten once by the `except` branch. -/
theorem loop_history_shape (ev : String → SlidePage → Except PyError SlidePage)
    (api_calls : List String) :
    ∀ (rest : List String) (line_idx : Nat) (fc : Bool)
      (ch : List CodeEntry) (sl : SlidePage),
    ∃ new tr,
      (execute_loop ev api_calls rest line_idx fc ch sl).2.1
        = apply_trace_last (ch ++ new) tr
      ∧ ∀ e ∈ new, e.mark = CODE_RUN_ERROR ∨ e.mark = CODE_RUN_CORRECT := by
  intro rest
  induction rest with
  | nil =>
    intro line_idx fc ch sl
    exact ⟨[], none, by simp [execute_loop, apply_trace_last], by simp⟩
  | cons line rest' ih =>
    intro line_idx fc ch sl
    obtain ⟨app, happ, happm⟩ :=
      try_body_history_shape ev api_calls line_idx line fc ch sl
    rcases htb : try_body ev api_calls line_idx line fc ch sl with ⟨o, ch1, sl1⟩
    rw [htb] at happ
    simp only at happ
    cases o with
    | skip =>
      obtain ⟨new, tr, heq, hm⟩ := ih (line_idx + 1) fc ch1 sl1
      refine ⟨app ++ new, tr, ?_, ?_⟩
      · rw [loop_cons_skip ev api_calls line rest' line_idx fc ch ch1 sl sl1 htb, heq,
          happ, List.append_assoc]
      · intro e he
        rcases List.mem_append.mp he with h | h
        · exact happm e h
        · exact hm e h
    | ran =>
      obtain ⟨new, tr, heq, hm⟩ := ih (line_idx + 1) true ch1 sl1
      refine ⟨app ++ new, tr, ?_, ?_⟩
      · rw [loop_cons_ran ev api_calls line rest' line_idx fc ch ch1 sl sl1 htb, heq,
          happ, List.append_assoc]
      · intro e he
        rcases List.mem_append.mp he with h | h
        · exact happm e h
        · exact hm e h
    | exn e fc' =>
      cases fc' with
      | false =>
        refine ⟨app, none, ?_, happm⟩
        rw [loop_cons_exn_false ev api_calls line rest' line_idx fc ch ch1 sl sl1 e htb]
        simpa [apply_trace_last] using happ
      | true =>
        by_cases hch1 : ch1 = []
        · refine ⟨app, none, ?_, happm⟩
          have hset : set_last_code_trace ch1 (format_exc e) = Except.error PyError.indexError := by
            simp [set_last_code_trace, hch1]
          simp only [execute_loop, htb]
          simp [hset]
          simpa [apply_trace_last] using happ
        · refine ⟨app, some (format_exc e), ?_, happm⟩
          have hset := set_last_code_trace_ok ch1 hch1 (format_exc e)
          rw [loop_cons_exn_true_ok ev api_calls line rest' line_idx fc ch ch1
              (apply_trace_last ch1 (some (format_exc e))) sl sl1 e htb hset]
          simp [happ]

/-- The first shape carrying a given index: its position, the fact that
`find?` returns it, and the effect of `modify_first` as a pointwise `set`. -/
theorem find_modify_first (shapes : List Shape) (id : Int)
    (h : ∃ sh ∈ shapes, sh.shape_idx = id) :
    ∃ i sh, shapes[i]? = some sh ∧ sh.shape_idx = id
      ∧ (∀ j, j < i → ∀ sh', shapes[j]? = some sh' → sh'.shape_idx ≠ id)
      ∧ shapes.find? (fun s => s.shape_idx == id) = some sh
      ∧ ∀ f, modify_first shapes id f = shapes.set i (f sh) := by
  induction shapes with
  | nil => simp at h
  | cons sh0 rest ih =>
    by_cases h0 : sh0.shape_idx = id
    · refine ⟨0, sh0, by simp, h0, by simp, ?_, ?_⟩
      · simp [List.find?, h0]
      · intro f; simp [modify_first, h0]
    · obtain ⟨sh, hmem, hid⟩ := h
      rcases List.mem_cons.mp hmem with rfl | hmem'
      · exact absurd hid h0
      obtain ⟨i, sh', hget, hid', hfirst, hfind, hmod⟩ := ih ⟨sh, hmem', hid⟩
      have h0b : (sh0.shape_idx == id) = false := by simpa using h0
      refine ⟨i + 1, sh', by simpa using hget, hid', ?_, ?_, ?_⟩
      · intro j hj shj hgetj
        cases j with
        | zero =>
          simp at hgetj
          subst hgetj
          exact h0
        | succ j' => exact hfirst j' (by omega) shj (by simpa using hgetj)
      · simp [List.find?, h0b, hfind]
      · intro f; simp [modify_first, h0b, hmod f]

theorem param_str_spec (p : PyParam) :
    param_str p
      = p.name ++ (match p.anno with | some t => ": " ++ t | none => "")
          ++ (match p.default_repr with | some d => " = " ++ d | none => "") := by
  unfold param_str
  cases p.anno <;> cases p.default_repr <;>
    simp [String.append_assoc]

/-! ## Claim theorems -/

/-- C2 (code_bug evidence): when execution fails at line 1 of the batch
`"del_span(1, 0, 0)\nfoo_bar(1)"`, the annotated text the code returns is
NOT the original sequence with the failing line replaced in place — the
slice `api_calls[: line_idx - 1]` drops line 0 and `api_calls[line_idx:]`
repeats the failing line after the marker. -/
theorem c2_code_divergence :
    (execute_actions ev_ok cx0 "del_span(1, 0, 0)\nfoo_bar(1)" slide0).1
      = ExecResult.failure "\n--> Error Line: foo_bar(1)\nfoo_bar(1)"
          "ValueError: The function foo_bar is not defined."
    ∧ "\n--> Error Line: foo_bar(1)\nfoo_bar(1)"
      ≠ "del_span(1, 0, 0)\n--> Error Line: foo_bar(1)" := by
  exact ⟨rfl, by decide⟩

/-- C6 counterexample: `del_span` and `replace_text` against the
non-Picture shape of `slideA` do not raise a type-mismatch error — they
succeed and queue a closure, refuting the claim for these two operations. -/
theorem c6_counterexample :
    del_span slideA 0 0 0
      = Except.ok ⟨0, [⟨0, false, "", [Closure.del_run 0 0], [], []⟩]⟩
    ∧ replace_text slideA 0 0 0 "Hello"
      = Except.ok ⟨0, [⟨0, false, "", [], [Closure.replace_run 0 0 "Hello"], []⟩]⟩ := by
  exact ⟨rfl, rfl⟩

/-- C6 (amended): among the four operations only the image operations are
type-guarded — for every slide whose resolved element is not a Picture,
`del_image` and `replace_image` (with an existing path) fail with the
type-mismatch error, returning no mutated slide. -/
theorem c6_amended_type_guard (slide : SlidePage) (eid : Int) (sh : Shape)
    (fs : String → Bool) (path : String)
    (hfind : element_index slide eid = Except.ok sh)
    (hpic : sh.is_picture = false)
    (hfs : fs path = true) :
    del_image slide eid = Except.error (PyError.valueError "The element is not a Picture.")
    ∧ replace_image fs slide eid path
      = Except.error (PyError.valueError "The element is not a Picture.") := by
  constructor
  · simp [del_image, hfind, hpic]
  · simp [replace_image, hfs, hfind, hpic]

theorem c6_amended_type_guard_witness :
    element_index slideA 0 = Except.ok shapeA
    ∧ shapeA.is_picture = false
    ∧ fs_all "/tmp/x.png" = true
    ∧ (del_image slideA 0 = Except.error (PyError.valueError "The element is not a Picture.")
       ∧ replace_image fs_all slideA 0 "/tmp/x.png"
         = Except.error (PyError.valueError "The element is not a Picture.")) :=
  ⟨rfl, rfl, rfl, c6_amended_type_guard slideA 0 shapeA fs_all "/tmp/x.png" rfl rfl rfl⟩

/-- C7 counterexample: the single-line batch
`"replace_image(3, '/tmp/missing.png')"` run through `execute_actions` does
not fail with the missing-asset error — the last-line check fires before the
line is parsed, so the failure is the "No code block found" grammar error. -/
theorem c7_counterexample :
    (execute_actions ev_replace_missing cx0 "replace_image(3, '/tmp/missing.png')" slide0).1
      = ExecResult.failure
          "\n--> Error Line: replace_image(3, '/tmp/missing.png')\nreplace_image(3, '/tmp/missing.png')"
          "ValueError: No code block found in the output, wrap your code with ```python```"
    ∧ "ValueError: No code block found in the output, wrap your code with ```python```"
      ≠ "ValueError: The image /tmp/missing.png does not exist." := by
  exact ⟨rfl, by decide⟩

/-- C7 (amended): a direct `replace_image` call with a path missing from
the filesystem fails with the missing-asset error for every slide and
figure id — before any element lookup, since the result does not depend on
the slide's shapes at all — and returns no mutated slide. -/
theorem c7_amended_missing_asset (fs : String → Bool) (slide : SlidePage)
    (figure_id : Int) (image_path : String)
    (hfs : fs image_path = false) :
    replace_image fs slide figure_id image_path
      = Except.error (PyError.valueError ("The image " ++ image_path ++ " does not exist.")) := by
  simp [replace_image, hfs]

theorem c7_amended_missing_asset_witness :
    fs_none "/tmp/missing.png" = false
    ∧ replace_image fs_none slideA 3 "/tmp/missing.png"
      = Except.error (PyError.valueError ("The image " ++ "/tmp/missing.png" ++ " does not exist.")) :=
  ⟨rfl, c7_amended_missing_asset fs_none slideA 3 "/tmp/missing.png" rfl⟩

/-- C9: `get_apis_docs` produces exactly the newline-join of one block per
operation, where each block is the spec's rendering — a first line
`def <name>(<arg[: type][ = default]>, ...)` omitting the implicit slide
parameter, and (when examples are shown) a tab-indented description line;
being a function of its arguments it is pure and deterministic. -/
theorem c9_docs_refinement (funcs : List PyFunc) (show_example : Bool) :
    get_apis_docs funcs show_example
      = py_join "\n" (funcs.map (spec_doc_block show_example)) := by
  unfold get_apis_docs
  congr 1
  apply List.map_congr_left
  intro f _
  unfold spec_doc_block func_signature func_params
  have hp : (f.params.filter (fun p => p.name ≠ "slide")).map param_str
      = (f.params.filter (fun p => p.name ≠ "slide")).map (fun p =>
          p.name ++ (match p.anno with | some t => ": " ++ t | none => "")
            ++ (match p.default_repr with | some d => " = " ++ d | none => "")) := by
    apply List.map_congr_left
    intro p _
    exact param_str_spec p
  rw [hp]
  cases show_example <;> simp

/-- C10: for every slide containing a shape with the requested index,
`del_span`, `replace_text` and `clone_paragraph` succeed for arbitrary
paragraph/span arguments (the indices are captured unvalidated), and the
sole effect of each is to append exactly one closure to the corresponding
queue of the first such shape — every other shape, every other field of
that shape, and the slide index are unchanged. -/
theorem c10_closure_queue (slide : SlidePage) (div_id paragraph_id span_id : Int)
    (text : String)
    (h : ∃ sh ∈ slide.shapes, sh.shape_idx = div_id) :
    ∃ i sh, slide.shapes[i]? = some sh ∧ sh.shape_idx = div_id
      ∧ (∀ j, j < i → ∀ sh', slide.shapes[j]? = some sh' → sh'.shape_idx ≠ div_id)
      ∧ del_span slide div_id paragraph_id span_id
        = Except.ok ⟨slide.slide_idx, slide.shapes.set i
            { sh with closures_delete :=
                sh.closures_delete ++ [Closure.del_run paragraph_id span_id] }⟩
      ∧ replace_text slide div_id paragraph_id span_id text
        = Except.ok ⟨slide.slide_idx, slide.shapes.set i
            { sh with closures_replace :=
                sh.closures_replace ++ [Closure.replace_run paragraph_id span_id text] }⟩
      ∧ clone_paragraph slide div_id paragraph_id
        = Except.ok ⟨slide.slide_idx, slide.shapes.set i
            { sh with closures_clone :=
                sh.closures_clone ++ [Closure.clone_para paragraph_id] }⟩ := by
  obtain ⟨i, sh, hget, hid, hfirst, hfind, hmod⟩ := find_modify_first slide.shapes div_id h
  refine ⟨i, sh, hget, hid, hfirst, ?_, ?_, ?_⟩
  · simp [del_span, with_element, element_index, hfind, hmod]
  · simp [replace_text, with_element, element_index, hfind, hmod]
  · simp [clone_paragraph, with_element, element_index, hfind, hmod]

theorem c10_closure_queue_witness :
    (∃ sh ∈ slideA.shapes, sh.shape_idx = 0)
    ∧ (∃ i sh, slideA.shapes[i]? = some sh ∧ sh.shape_idx = 0
      ∧ (∀ j, j < i → ∀ sh', slideA.shapes[j]? = some sh' → sh'.shape_idx ≠ 0)
      ∧ del_span slideA 0 4 9
        = Except.ok ⟨slideA.slide_idx, slideA.shapes.set i
            { sh with closures_delete := sh.closures_delete ++ [Closure.del_run 4 9] }⟩
      ∧ replace_text slideA 0 4 9 "Hi"
        = Except.ok ⟨slideA.slide_idx, slideA.shapes.set i
            { sh with closures_replace := sh.closures_replace ++ [Closure.replace_run 4 9 "Hi"] }⟩
      ∧ clone_paragraph slideA 0 4
        = Except.ok ⟨slideA.slide_idx, slideA.shapes.set i
            { sh with closures_clone := sh.closures_clone ++ [Closure.clone_para 4] }⟩) :=
  ⟨⟨shapeA, by simp [slideA], rfl⟩,
   c10_closure_queue slideA 0 4 9 "Hi" ⟨shapeA, by simp [slideA], rfl⟩⟩

/-- C3 counterexample: in the batch `"del_span(1, 0, 0)\nfoo_bar(1)"` the
failure at line 1 (unregistered identifier) writes its trace into the
history entry that was appended for line 0 — a field of an earlier
statement's entry is modified after that entry was appended and
mark-flipped, refuting the append-only-except-mark-flip claim. -/
theorem c3_counterexample :
    (execute_actions ev_ok cx0 "del_span(1, 0, 0)\nfoo_bar(1)" slide0).1
      = ExecResult.failure "\n--> Error Line: foo_bar(1)\nfoo_bar(1)"
          "ValueError: The function foo_bar is not defined."
    ∧ (execute_actions ev_ok cx0 "del_span(1, 0, 0)\nfoo_bar(1)" slide0).2.1.code_history
      = [⟨CODE_RUN_CORRECT, "del_span(1, 0, 0)",
          some "ValueError: The function foo_bar is not defined."⟩] := by
  exact ⟨rfl, rfl⟩

/-- C3 (amended): every run leaves the histories as pure appends with two
exceptions only — the just-appended entry's mark may be flipped to its
optimistic counterpart, and on failure the trace field of the most recently
appended code entry is overwritten once (which, when no entry exists for
the failing line, modifies the entry of an earlier statement). -/
theorem c3_amended_history_shape (ev : String → SlidePage → Except PyError SlidePage)
    (self : CodeExecutor) (actions : String) (slide : SlidePage) :
    (∃ new tr,
      (execute_actions ev self actions slide).2.1.code_history
        = apply_trace_last (self.code_history ++ new) tr
      ∧ ∀ e ∈ new, e.mark = CODE_RUN_ERROR ∨ e.mark = CODE_RUN_CORRECT)
    ∧ (∃ am, (am = API_CALL_ERROR ∨ am = API_CALL_CORRECT)
      ∧ (execute_actions ev self actions slide).2.1.api_history
        = self.api_history ++ [⟨am, slide.slide_idx, actions⟩]) := by
  obtain ⟨new, tr, heq, hm⟩ :=
    loop_history_shape ev (py_split_nl_str (pyStrip actions))
      (py_split_nl_str (pyStrip actions)) 0 false self.code_history slide
  rcases hl : execute_loop ev (py_split_nl_str (pyStrip actions))
      (py_split_nl_str (pyStrip actions)) 0 false self.code_history slide with ⟨res, ch, sl⟩
  rw [hl] at heq
  simp only at heq
  cases res with
  | completed =>
    refine ⟨⟨new, tr, ?_, hm⟩, API_CALL_CORRECT, Or.inr rfl, ?_⟩
    · simp only [execute_actions, hl]
      exact heq
    · simp only [execute_actions, hl]
      simp [update_last_api_mark_concat]
  | returned a t =>
    refine ⟨⟨new, tr, ?_, hm⟩, API_CALL_ERROR, Or.inl rfl, ?_⟩
    · simp only [execute_actions, hl]
      exact heq
    · simp only [execute_actions, hl]
  | raised e =>
    refine ⟨⟨new, tr, ?_, hm⟩, API_CALL_ERROR, Or.inl rfl, ?_⟩
    · simp only [execute_actions, hl]
      exact heq
    · simp only [execute_actions, hl]

/-- C5: a batch whose lines all fail the statement grammar (and none starts
with `def`) fails with the "no executable statement found" error attributed
to the final line — the final line carries the `--> Error Line:` marker in
the annotated text — while no statement entry is appended, the batch entry
keeps `api_call_error`, and the slide is untouched. -/
theorem c5_no_code_error (ev : String → SlidePage → Except PyError SlidePage)
    (self : CodeExecutor) (actions : String) (slide : SlidePage)
    (hnc : ∀ l ∈ py_split_nl_str (pyStrip actions),
      function_regex_match l = false ∧ py_startswith l "def" = false) :
    ∃ last pre,
      (py_split_nl_str (pyStrip actions)).getLast? = some last
      ∧ execute_actions ev self actions slide
        = (ExecResult.failure (pre ++ "\n--> Error Line: " ++ last ++ "\n" ++ last)
            (format_exc (PyError.valueError
              "No code block found in the output, wrap your code with ```python```")),
          ⟨self.api_history ++ [⟨API_CALL_ERROR, slide.slide_idx, actions⟩],
            self.code_history, self.retry_times⟩,
          slide) := by
  have hA : py_split_nl_str (pyStrip actions) ≠ [] := py_split_nl_str_ne_nil _
  set A := py_split_nl_str (pyStrip actions) with hAdef
  have hdecomp : A.dropLast ++ [A.getLast hA] = A := List.dropLast_append_getLast hA
  have hlenA : A.dropLast.length = A.length - 1 := List.length_dropLast A
  have hApos : 0 < A.length := List.length_pos.mpr hA
  obtain ⟨new, sl2, heq, _, _, hnone⟩ :=
    loop_good_prefix ev A A.dropLast [A.getLast hA] 0 false self.code_history slide
      (by simp)
      (by simp [hlenA]; omega)
      (fun l hl => (hnc l (List.dropLast_subset A hl)).2)
      (fun l hl hm => absurd hm (by simp [(hnc l (List.dropLast_subset A hl)).1]))
  have hanyf : A.dropLast.any (fun l => function_regex_match l) = false := by
    rw [List.any_eq_false]
    intro x hx
    simp [(hnc x (List.dropLast_subset A hx)).1]
  obtain ⟨hnew, hsl⟩ := hnone hanyf
  rw [hnew, hsl, hanyf] at heq
  have hstep := try_body_nocode ev A A.dropLast.length (A.getLast hA)
    self.code_history slide (by omega)
  have hloop1 := loop_cons_exn_false ev A (A.getLast hA) [] A.dropLast.length false
    self.code_history self.code_history slide slide
    (PyError.valueError "No code block found in the output, wrap your code with ```python```")
    hstep
  refine ⟨A.getLast hA, py_join "\n" (py_slice_to A ((A.dropLast.length : Int) - 1)), ?_, ?_⟩
  · exact List.getLast?_eq_getLast A hA
  · have hrender : api_lines_render A A.dropLast.length (A.getLast hA)
        = py_join "\n" (py_slice_to A ((A.dropLast.length : Int) - 1))
            ++ "\n--> Error Line: " ++ A.getLast hA ++ "\n" ++ A.getLast hA := by
      unfold api_lines_render
      have hdrop : A.drop A.dropLast.length = [A.getLast hA] := by
        have hd := List.drop_left A.dropLast [A.getLast hA]
        rwa [hdecomp] at hd
      rw [hdrop]
      simp [py_join]
    simp only [execute_actions, ← hAdef]
    rw [show execute_loop ev A A 0 false self.code_history slide
        = execute_loop ev A (A.dropLast ++ [A.getLast hA]) 0 false self.code_history slide
      from by rw [hdecomp]]
    rw [heq]
    simp only [List.append_nil, Bool.false_or, Nat.zero_add]
    rw [hloop1]
    simp [hrender]
    rw [← hlenA]
    exact hrender

theorem c5_no_code_error_witness :
    (∀ l ∈ py_split_nl_str (pyStrip "hello\nworld"),
      function_regex_match l = false ∧ py_startswith l "def" = false)
    ∧ (∃ last pre,
      (py_split_nl_str (pyStrip "hello\nworld")).getLast? = some last
      ∧ execute_actions ev_ok cx0 "hello\nworld" slide0
        = (ExecResult.failure (pre ++ "\n--> Error Line: " ++ last ++ "\n" ++ last)
            (format_exc (PyError.valueError
              "No code block found in the output, wrap your code with ```python```")),
          ⟨cx0.api_history ++ [⟨API_CALL_ERROR, slide0.slide_idx, "hello\nworld"⟩],
            cx0.code_history, cx0.retry_times⟩,
          slide0)) :=
  ⟨by decide, c5_no_code_error ev_ok cx0 "hello\nworld" slide0 (by decide)⟩

/-- C1 counterexample: the batch `"del_span(1, 0, 0)"` consists of one line
that matches the grammar, names a registered operation, and evaluates
without raising (under `ev_ok`) — the claim's hypothesis, in its emphasized
"only grammar-matching statement is the last line" form — yet
`execute_actions` fails with the no-code-block error and the batch entry
keeps `api_call_error`, because the last-line check runs before the last
line itself is examined. -/
theorem c1_counterexample :
    function_regex_match "del_span(1, 0, 0)" = true
    ∧ registered_functions.contains (split_paren_head "del_span(1, 0, 0)") = true
    ∧ (∀ s, ev_ok "del_span(1, 0, 0)" s = Except.ok s)
    ∧ (execute_actions ev_ok cx0 "del_span(1, 0, 0)" slide0).1
      = ExecResult.failure "\n--> Error Line: del_span(1, 0, 0)\ndel_span(1, 0, 0)"
          "ValueError: No code block found in the output, wrap your code with ```python```"
    ∧ (execute_actions ev_ok cx0 "del_span(1, 0, 0)" slide0).2.1.api_history
      = [⟨API_CALL_ERROR, 0, "del_span(1, 0, 0)"⟩] := by
  exact ⟨by decide, by decide, fun s => rfl, rfl, rfl⟩

/-- C1 (amended): for every batch in which no line starts with `def`, every
grammar-matching line names a registered operation and evaluates without
raising, and at least one line other than the last matches the grammar,
`execute_actions` flips the batch entry to `api_call_correct` and every
appended statement entry carries `code_run_correct`. -/
theorem c1_amended_success (ev : String → SlidePage → Except PyError SlidePage)
    (self : CodeExecutor) (actions : String) (slide : SlidePage)
    (hdef : ∀ l ∈ py_split_nl_str (pyStrip actions), py_startswith l "def" = false)
    (hgood : ∀ l ∈ py_split_nl_str (pyStrip actions), function_regex_match l = true →
      registered_functions.contains (split_paren_head l) = true
        ∧ ∀ s, ∃ s2, ev l s = Except.ok s2)
    (hfound : ∃ l ∈ (py_split_nl_str (pyStrip actions)).dropLast,
      function_regex_match l = true) :
    ∃ new sl2,
      execute_actions ev self actions slide
        = (ExecResult.success,
           ⟨self.api_history ++ [⟨API_CALL_CORRECT, slide.slide_idx, actions⟩],
            self.code_history ++ new, self.retry_times⟩, sl2)
      ∧ ∀ e ∈ new, e.mark = CODE_RUN_CORRECT := by
  have hA : py_split_nl_str (pyStrip actions) ≠ [] := py_split_nl_str_ne_nil _
  set A := py_split_nl_str (pyStrip actions) with hAdef
  have hdecomp : A.dropLast ++ [A.getLast hA] = A := List.dropLast_append_getLast hA
  have hlenA : A.dropLast.length = A.length - 1 := List.length_dropLast A
  have hApos : 0 < A.length := List.length_pos.mpr hA
  obtain ⟨new0, sl2, heq, hmarks, _, _⟩ :=
    loop_good_prefix ev A A.dropLast [A.getLast hA] 0 false self.code_history slide
      (by simp)
      (by simp [hlenA]; omega)
      (fun l hl => hdef l (List.dropLast_subset A hl))
      (fun l hl => hgood l (List.dropLast_subset A hl))
  have hany : A.dropLast.any (fun l => function_regex_match l) = true := by
    rw [List.any_eq_true]
    obtain ⟨l, hl, hm⟩ := hfound
    exact ⟨l, hl, hm⟩
  rw [hany] at heq
  simp only [Bool.false_or, Nat.zero_add, List.append_nil] at heq
  have h1 : ¬(A.dropLast.length = A.length - 1 ∧ true = false) := by simp
  have hdefl : py_startswith (A.getLast hA) "def" = false :=
    hdef (A.getLast hA) (List.getLast_mem hA)
  cases hm : function_regex_match (A.getLast hA) with
  | false =>
    have hstep := try_body_skip ev A A.dropLast.length (A.getLast hA) true
      (self.code_history ++ new0) sl2 h1 hdefl hm
    have hloop := loop_cons_skip ev A (A.getLast hA) [] A.dropLast.length true
      (self.code_history ++ new0) (self.code_history ++ new0) sl2 sl2 hstep
    refine ⟨new0, sl2, ?_, fun e he => (hmarks e he).1⟩
    simp only [execute_actions, ← hAdef]
    rw [show execute_loop ev A A 0 false self.code_history slide
        = execute_loop ev A (A.dropLast ++ [A.getLast hA]) 0 false self.code_history slide
      from by rw [hdecomp]]
    rw [heq, hloop]
    simp only [execute_loop]
    simp [update_last_api_mark_concat]
  | true =>
    obtain ⟨hreg, hev⟩ := hgood (A.getLast hA) (List.getLast_mem hA) hm
    obtain ⟨sl3, hsl3⟩ := hev sl2
    have hstep := try_body_run ev A A.dropLast.length (A.getLast hA) true
      (self.code_history ++ new0) sl2 sl3 h1 hdefl hm hreg hsl3
    have hloop := loop_cons_ran ev A (A.getLast hA) [] A.dropLast.length true
      (self.code_history ++ new0)
      ((self.code_history ++ new0) ++ [⟨CODE_RUN_CORRECT, A.getLast hA, none⟩]) sl2 sl3 hstep
    refine ⟨new0 ++ [⟨CODE_RUN_CORRECT, A.getLast hA, none⟩], sl3, ?_, ?_⟩
    · simp only [execute_actions, ← hAdef]
      rw [show execute_loop ev A A 0 false self.code_history slide
          = execute_loop ev A (A.dropLast ++ [A.getLast hA]) 0 false self.code_history slide
        from by rw [hdecomp]]
      rw [heq, hloop]
      simp only [execute_loop]
      simp [update_last_api_mark_concat, List.append_assoc]
    · intro e he
      rcases List.mem_append.mp he with h | h
      · exact (hmarks e h).1
      · simp at h
        rw [h]

theorem c1_amended_success_witness :
    (∀ l ∈ py_split_nl_str (pyStrip "del_span(1, 0, 0)\ndone"),
      py_startswith l "def" = false)
    ∧ (∀ l ∈ py_split_nl_str (pyStrip "del_span(1, 0, 0)\ndone"),
      function_regex_match l = true →
        registered_functions.contains (split_paren_head l) = true
          ∧ ∀ s, ∃ s2, ev_ok l s = Except.ok s2)
    ∧ (∃ l ∈ (py_split_nl_str (pyStrip "del_span(1, 0, 0)\ndone")).dropLast,
      function_regex_match l = true)
    ∧ (∃ new sl2,
      execute_actions ev_ok cx0 "del_span(1, 0, 0)\ndone" slide0
        = (ExecResult.success,
           ⟨cx0.api_history ++ [⟨API_CALL_CORRECT, slide0.slide_idx, "del_span(1, 0, 0)\ndone"⟩],
            cx0.code_history ++ new, cx0.retry_times⟩, sl2)
      ∧ ∀ e ∈ new, e.mark = CODE_RUN_CORRECT) :=
  ⟨by decide,
   fun l hl hm => ⟨by
      have : l = "del_span(1, 0, 0)" ∨ l = "done" := by
        have hl' := hl
        simp [py_split_nl_str, pyStrip, py_split_nl] at hl'
        tauto
      rcases this with rfl | rfl
      · decide
      · exact absurd hm (by decide),
     fun s => ⟨s, rfl⟩⟩,
   ⟨"del_span(1, 0, 0)", by decide⟩,
   c1_amended_success ev_ok cx0 "del_span(1, 0, 0)\ndone" slide0
     (by decide)
     (fun l hl hm => ⟨by
        have : l = "del_span(1, 0, 0)" ∨ l = "done" := by
          have hl' := hl
          simp [py_split_nl_str, pyStrip, py_split_nl] at hl'
          tauto
        rcases this with rfl | rfl
        · decide
        · exact absurd hm (by decide),
       fun s => ⟨s, rfl⟩⟩)
     ⟨"del_span(1, 0, 0)", by decide⟩⟩

/-- C4 counterexample: on a fresh executor the batch
`"foo_bar(1)\nfoo_bar(2)"` contains a grammar-matching line with an
unregistered identifier, but `execute_actions` does not return the
two-value failure tuple — the `except` branch indexes the empty code
history and the run escapes with an `IndexError`. -/
theorem c4_counterexample :
    function_regex_match "foo_bar(1)" = true
    ∧ registered_functions.contains (split_paren_head "foo_bar(1)") = false
    ∧ (execute_actions ev_ok cx0 "foo_bar(1)\nfoo_bar(2)" slide0).1
      = ExecResult.raised PyError.indexError := by
  exact ⟨by decide, by decide, rfl⟩

/-- C4 (amended): when the first failing line of the batch is a
grammar-matching statement with an unregistered identifier (all earlier
lines being non-`def` lines that either miss the grammar or are registered
statements evaluating without raising), and a statement entry exists in the
code history at that moment (from this batch or an earlier one — otherwise
an `IndexError` escapes), `execute_actions` returns the failure tuple whose
annotated text marks that line, evaluates nothing after it, appends
statement entries only for the earlier lines, writes the trace onto the
most recently appended entry (an earlier statement's), and leaves the batch
entry `api_call_error`. -/
theorem c4_amended_unregistered (ev : String → SlidePage → Except PyError SlidePage)
    (self : CodeExecutor) (actions : String) (slide : SlidePage)
    (pre post : List String) (line : String)
    (hsplit : py_split_nl_str (pyStrip actions) = pre ++ line :: post)
    (hpredef : ∀ l ∈ pre, py_startswith l "def" = false)
    (hpregood : ∀ l ∈ pre, function_regex_match l = true →
      registered_functions.contains (split_paren_head l) = true
        ∧ ∀ s, ∃ s2, ev l s = Except.ok s2)
    (hdef : py_startswith line "def" = false)
    (hmatch : function_regex_match line = true)
    (hunreg : registered_functions.contains (split_paren_head line) = false)
    (hlastok : post ≠ [] ∨ pre.any (fun l => function_regex_match l) = true)
    (hhist : self.code_history ≠ [] ∨ pre.any (fun l => function_regex_match l) = true) :
    ∃ new ch2 sl2,
      execute_actions ev self actions slide
        = (ExecResult.failure
            (api_lines_render (pre ++ line :: post) pre.length line)
            (format_exc (PyError.valueError
              ("The function " ++ split_paren_head line ++ " is not defined."))),
          ⟨self.api_history ++ [⟨API_CALL_ERROR, slide.slide_idx, actions⟩],
            ch2, self.retry_times⟩, sl2)
      ∧ set_last_code_trace (self.code_history ++ new)
          (format_exc (PyError.valueError
            ("The function " ++ split_paren_head line ++ " is not defined.")))
        = Except.ok ch2
      ∧ ∀ e ∈ new, e.mark = CODE_RUN_CORRECT ∧ e.line ∈ pre := by
  set A := py_split_nl_str (pyStrip actions) with hAdef
  obtain ⟨new, sl2, heq, hmarks, hany, _⟩ :=
    loop_good_prefix ev A pre (line :: post) 0 false self.code_history slide
      (by simp)
      (by simp [hsplit])
      hpredef hpregood
  have h1 : ¬(pre.length = A.length - 1
      ∧ (false || pre.any (fun l => function_regex_match l)) = false) := by
    rintro ⟨ha, hb⟩
    simp only [Bool.false_or] at hb
    rcases hlastok with hp | hm
    · have hplen : 0 < post.length := List.length_pos.mpr hp
      have : A.length = pre.length + post.length + 1 := by simp [hsplit]; omega
      omega
    · rw [hm] at hb
      cases hb
  have hstep := try_body_unregistered ev A pre.length line
    (false || pre.any (fun l => function_regex_match l))
    (self.code_history ++ new) sl2 h1 hdef hmatch hunreg
  have hnonempty : self.code_history ++ new ≠ [] := by
    rcases hhist with hc | hm
    · simp [hc]
    · have := hany hm
      simp [this]
  have hset := set_last_code_trace_ok (self.code_history ++ new) hnonempty
    (format_exc (PyError.valueError
      ("The function " ++ split_paren_head line ++ " is not defined.")))
  have hloop := loop_cons_exn_true_ok ev A line post pre.length
    (false || pre.any (fun l => function_regex_match l))
    (self.code_history ++ new) (self.code_history ++ new)
    (apply_trace_last (self.code_history ++ new)
      (some (format_exc (PyError.valueError
        ("The function " ++ split_paren_head line ++ " is not defined.")))))
    sl2 sl2
    (PyError.valueError ("The function " ++ split_paren_head line ++ " is not defined."))
    hstep hset
  refine ⟨new,
    apply_trace_last (self.code_history ++ new)
      (some (format_exc (PyError.valueError
        ("The function " ++ split_paren_head line ++ " is not defined.")))),
    sl2, ?_, hset, fun e he => ⟨(hmarks e he).1, (hmarks e he).2.1⟩⟩
  simp only [execute_actions, ← hAdef]
  rw [show execute_loop ev A A 0 false self.code_history slide
      = execute_loop ev A (pre ++ line :: post) 0 false self.code_history slide
    from by rw [← hsplit]]
  rw [heq]
  simp only [Nat.zero_add]
  rw [hloop]
  rw [hsplit]

theorem c4_amended_unregistered_witness :
    py_split_nl_str (pyStrip "del_span(1, 0, 0)\nfoo_bar(1)\nx")
      = ["del_span(1, 0, 0)"] ++ "foo_bar(1)" :: ["x"]
    ∧ (∀ l ∈ ["del_span(1, 0, 0)"], py_startswith l "def" = false)
    ∧ (∀ l ∈ ["del_span(1, 0, 0)"], function_regex_match l = true →
      registered_functions.contains (split_paren_head l) = true
        ∧ ∀ s, ∃ s2, ev_ok l s = Except.ok s2)
    ∧ py_startswith "foo_bar(1)" "def" = false
    ∧ function_regex_match "foo_bar(1)" = true
    ∧ registered_functions.contains (split_paren_head "foo_bar(1)") = false
    ∧ (["x"] ≠ ([] : List String)
        ∨ (["del_span(1, 0, 0)"].any (fun l => function_regex_match l)) = true)
    ∧ (cx0.code_history ≠ []
        ∨ (["del_span(1, 0, 0)"].any (fun l => function_regex_match l)) = true)
    ∧ (∃ new ch2 sl2,
      execute_actions ev_ok cx0 "del_span(1, 0, 0)\nfoo_bar(1)\nx" slide0
        = (ExecResult.failure
            (api_lines_render (["del_span(1, 0, 0)"] ++ "foo_bar(1)" :: ["x"]) (["del_span(1, 0, 0)"] : List String).length "foo_bar(1)")
            (format_exc (PyError.valueError
              ("The function " ++ split_paren_head "foo_bar(1)" ++ " is not defined."))),
          ⟨cx0.api_history ++ [⟨API_CALL_ERROR, slide0.slide_idx, "del_span(1, 0, 0)\nfoo_bar(1)\nx"⟩],
            ch2, cx0.retry_times⟩, sl2)
      ∧ set_last_code_trace (cx0.code_history ++ new)
          (format_exc (PyError.valueError
            ("The function " ++ split_paren_head "foo_bar(1)" ++ " is not defined.")))
        = Except.ok ch2
      ∧ ∀ e ∈ new, e.mark = CODE_RUN_CORRECT ∧ e.line ∈ ["del_span(1, 0, 0)"]) :=
  ⟨by decide, by decide,
   fun l hl hm => ⟨by
      have hle : l = "del_span(1, 0, 0)" := by simpa using hl
      subst hle
      decide,
     fun s => ⟨s, rfl⟩⟩,
   by decide, by decide, by decide,
   Or.inl (by decide), Or.inr (by decide),
   c4_amended_unregistered ev_ok cx0 "del_span(1, 0, 0)\nfoo_bar(1)\nx" slide0
     ["del_span(1, 0, 0)"] ["x"] "foo_bar(1)"
     (by decide) (by decide)
     (fun l hl hm => ⟨by
        have hle : l = "del_span(1, 0, 0)" := by simpa using hl
        subst hle
        decide,
       fun s => ⟨s, rfl⟩⟩)
     (by decide) (by decide) (by decide)
     (Or.inl (by decide)) (Or.inr (by decide))⟩

theorem try_body_evalerr (ev : String → SlidePage → Except PyError SlidePage)
    (api_calls : List String) (line_idx : Nat) (line : String) (fc : Bool)
    (ch : List CodeEntry) (sl : SlidePage) (e : PyError)
    (h1 : ¬(line_idx = api_calls.length - 1 ∧ fc = false))
    (h2 : py_startswith line "def" = false)
    (h3 : function_regex_match line = true)
    (h4 : registered_functions.contains (split_paren_head line) = true)
    (h5 : ev line sl = Except.error e) :
    try_body ev api_calls line_idx line fc ch sl
      = (BodyOutcome.exn e true, ch ++ [⟨CODE_RUN_ERROR, line, none⟩], sl) := by
  have h4m : split_paren_head line ∈ registered_functions := by simpa using h4
  simp [try_body, h1, h2, h3, h4m, h5]

/-- C8: outside the two special cases (last-line-without-code and a line
starting with `def`), a line is treated as an executable statement exactly
when it matches `^[a-z]+_[a-z]+\(.+\)$` — a non-matching line is skipped
silently (the loop continues with identical history, flag and slide, and no
entry is appended), while a matching line reaches the registry: either the
unknown-operation error is raised about its identifier, or exactly one
statement entry for this line is appended. -/
theorem c8_grammar_gate (ev : String → SlidePage → Except PyError SlidePage)
    (api_calls rest : List String) (line_idx : Nat) (line : String) (fc : Bool)
    (ch : List CodeEntry) (sl : SlidePage)
    (hnl : ¬(line_idx = api_calls.length - 1 ∧ fc = false))
    (hdef : py_startswith line "def" = false) :
    (function_regex_match line = false →
      try_body ev api_calls line_idx line fc ch sl = (BodyOutcome.skip, ch, sl)
      ∧ execute_loop ev api_calls (line :: rest) line_idx fc ch sl
        = execute_loop ev api_calls rest (line_idx + 1) fc ch sl)
    ∧ (function_regex_match line = true →
      (registered_functions.contains (split_paren_head line) = false →
        try_body ev api_calls line_idx line fc ch sl
          = (BodyOutcome.exn (PyError.valueError
              ("The function " ++ split_paren_head line ++ " is not defined.")) true, ch, sl))
      ∧ (registered_functions.contains (split_paren_head line) = true →
        ∃ o sl2 m, try_body ev api_calls line_idx line fc ch sl
          = (o, ch ++ [⟨m, line, none⟩], sl2))) := by
  constructor
  · intro hm
    have hskip := try_body_skip ev api_calls line_idx line fc ch sl hnl hdef hm
    exact ⟨hskip, loop_cons_skip ev api_calls line rest line_idx fc ch ch sl sl hskip⟩
  · intro hm
    constructor
    · intro hr
      exact try_body_unregistered ev api_calls line_idx line fc ch sl hnl hdef hm hr
    · intro hr
      cases hev : ev line sl with
      | ok sl2 =>
        exact ⟨BodyOutcome.ran, sl2, CODE_RUN_CORRECT,
          try_body_run ev api_calls line_idx line fc ch sl sl2 hnl hdef hm hr hev⟩
      | error e =>
        exact ⟨BodyOutcome.exn e true, sl, CODE_RUN_ERROR,
          try_body_evalerr ev api_calls line_idx line fc ch sl e hnl hdef hm hr hev⟩

theorem c8_grammar_gate_witness :
    ¬((0 : Nat) = (["ab_cd(1)", "x"] : List String).length - 1 ∧ false = false)
    ∧ py_startswith "ab_cd(1)" "def" = false
    ∧ ((function_regex_match "ab_cd(1)" = false →
      try_body ev_ok ["ab_cd(1)", "x"] 0 "ab_cd(1)" false [] slide0
        = (BodyOutcome.skip, [], slide0)
      ∧ execute_loop ev_ok ["ab_cd(1)", "x"] ("ab_cd(1)" :: ["x"]) 0 false [] slide0
        = execute_loop ev_ok ["ab_cd(1)", "x"] ["x"] 1 false [] slide0)
    ∧ (function_regex_match "ab_cd(1)" = true →
      (registered_functions.contains (split_paren_head "ab_cd(1)") = false →
        try_body ev_ok ["ab_cd(1)", "x"] 0 "ab_cd(1)" false [] slide0
          = (BodyOutcome.exn (PyError.valueError
              ("The function " ++ split_paren_head "ab_cd(1)" ++ " is not defined.")) true, [], slide0))
      ∧ (registered_functions.contains (split_paren_head "ab_cd(1)") = true →
        ∃ o sl2 m, try_body ev_ok ["ab_cd(1)", "x"] 0 "ab_cd(1)" false [] slide0
          = (o, [] ++ [⟨m, "ab_cd(1)", none⟩], sl2)))) :=
  ⟨by decide, by decide,
   c8_grammar_gate ev_ok ["ab_cd(1)", "x"] ["x"] 0 "ab_cd(1)" false [] slide0
     (by decide) (by decide)⟩
